import Mathlib

/-
Shallow embedding of the storyteller module (src/main.js).

The module keeps a Page Directory (the client setting storyteller/pages,
a JavaScript object mapping document id to page number), broadcasts a
setPageToOpen event over the shared socket channel, and swaps journal
sheets around the document creation hooks.  JavaScript objects with
string keys are embedded as association lists with first-occurrence
lookup and overwrite-or-append update; socket emissions, journal
fetches and sheet renders are recorded as explicit effect traces.
-/

namespace Storyteller

/-- Lookup in a JavaScript-object-like association list: first matching key. -/
def getAssoc {α : Type} : List (String × α) → String → Option α
  | [], _ => none
  | kv :: rest, k => if kv.1 = k then some kv.2 else getAssoc rest k

/-- Update in a JavaScript-object-like association list: overwrite the first
occurrence of the key, or append the new binding at the end (obj[k] = v). -/
def setAssoc {α : Type} : List (String × α) → String → α → List (String × α)
  | [], k, v => [(k, v)]
  | kv :: rest, k, v => if kv.1 = k then (k, v) :: rest else kv :: setAssoc rest k v

theorem getAssoc_setAssoc_self {α : Type} (m : List (String × α)) (k : String) (v : α) :
    getAssoc (setAssoc m k v) k = some v := by
  induction m with
  | nil => simp [setAssoc, getAssoc]
  | cons kv rest ih =>
    by_cases h : kv.1 = k
    · simp [setAssoc, getAssoc, h]
    · simp [setAssoc, getAssoc, h, ih]

theorem getAssoc_setAssoc_ne {α : Type} (m : List (String × α)) (k j : String) (v : α)
    (h : j ≠ k) : getAssoc (setAssoc m k v) j = getAssoc m j := by
  have hkj : k ≠ j := Ne.symm h
  induction m with
  | nil => simp [setAssoc, getAssoc, hkj]
  | cons kv rest ih =>
    by_cases hk : kv.1 = k
    · subst hk
      simp [setAssoc, getAssoc, hkj]
    · by_cases hj : kv.1 = j
      · simp [setAssoc, getAssoc, hk, hj, h]
      · simp [setAssoc, getAssoc, hk, hj, ih]

theorem isSome_getAssoc_setAssoc {α : Type} (m : List (String × α)) (k j : String) (v : α)
    (h : (getAssoc m j).isSome) : (getAssoc (setAssoc m k v) j).isSome := by
  by_cases hj : j = k
  · subst hj
    simp [getAssoc_setAssoc_self]
  · rw [getAssoc_setAssoc_ne m k j v hj]
    exact h

/-- The Page Directory: the storyteller/pages client setting, an object
mapping document id to page number. -/
abbrev Pages := List (String × Int)

/-- The shape of the message sent and received on the module.storyteller
socket channel. -/
structure SocketMessage where
  action : String
  id : String
  page : Int
deriving DecidableEq

/-- Journal fetch-and-render effects performed by the show functions:
showText stands for game.journal.get(id) followed by story.show with
the text argument, renderSheet for game.journal.get(id) followed by
story.sheet.render(true). -/
inductive RenderEffect where
  | showText (id : String)
  | renderSheet (id : String)
deriving DecidableEq

/-- Result of a show call: the socket events emitted, the updated Page
Directory, the journal ids fetched, and the render effects performed. -/
structure ShowResult where
  emitted : List SocketMessage
  pages : Pages
  fetched : List String
  rendered : List RenderEffect
deriving DecidableEq

/-- Embedding of the socket handler from src/main.js lines 97 to 104:
return unless the action is setPageToOpen and the id is nonempty,
otherwise write pages[id] = page back to the setting. -/
def _setPageToOpen (pages : Pages) (data : SocketMessage) : Pages :=
  if data.action ≠ "setPageToOpen" ∨ data.id = "" then pages
  else setAssoc pages data.id data.page

/-- Embedding of showStoryByIDToAll from src/main.js lines 107 to 125:
when page is nonzero, emit the setPageToOpen event and update the local
pages setting; in every case fetch the journal entry and show its text. -/
def showStoryByIDToAll (pages : Pages) (id : String) (page : Int) : ShowResult :=
  if page ≠ 0 then
    { emitted := [{ action := "setPageToOpen", id := id, page := page }]
      pages := setAssoc pages id page
      fetched := [id]
      rendered := [RenderEffect.showText id] }
  else
    { emitted := []
      pages := pages
      fetched := [id]
      rendered := [RenderEffect.showText id] }

/-- Embedding of showStoryToPlayerOnly from src/main.js lines 128 to 139:
when page is nonzero, update the local pages setting; in every case fetch
the journal entry and render its sheet locally.  No socket emission occurs
anywhere in the function body. -/
def showStoryToPlayerOnly (pages : Pages) (id : String) (page : Int) : ShowResult :=
  if page ≠ 0 then
    { emitted := []
      pages := setAssoc pages id page
      fetched := [id]
      rendered := [RenderEffect.renderSheet id] }
  else
    { emitted := []
      pages := pages
      fetched := [id]
      rendered := [RenderEffect.renderSheet id] }

/-- Character-list comparison used to embed the JavaScript Array.sort
default string comparison (code-unit order; the keys involved are ASCII,
where scalar order and UTF-16 code-unit order agree). -/
def strLeChars : List Char → List Char → Bool
  | [], _ => true
  | _ :: _, [] => false
  | a :: as, b :: bs =>
    if a.toNat < b.toNat then true
    else if b.toNat < a.toNat then false
    else strLeChars as bs

def strLeb (a b : String) : Bool := strLeChars a.data b.data

/-- Insertion into a sorted list, the helper of sortStrings. -/
def insertSorted (s : String) : List String → List String
  | [] => [s]
  | x :: xs => if strLeb s x then s :: x :: xs else x :: insertSorted s xs

/-- Embedding of Array.prototype.sort on a list of strings (insertion sort;
only the multiset of elements matters for the claims). -/
def sortStrings : List String → List String
  | [] => []
  | x :: xs => insertSorted x (sortStrings xs)

theorem insertSorted_perm (s : String) (l : List String) :
    List.Perm (insertSorted s l) (s :: l) := by
  induction l with
  | nil => simp [insertSorted]
  | cons x xs ih =>
    by_cases h : strLeb s x
    · simp [insertSorted, h]
    · simp only [insertSorted, h, if_neg, Bool.false_eq_true, not_false_iff, ite_false]
      exact (ih.cons x).trans (List.Perm.swap s x xs)

theorem sortStrings_perm (l : List String) : List.Perm (sortStrings l) l := by
  induction l with
  | nil => simp [sortStrings]
  | cons x xs ih =>
    exact (insertSorted_perm x (sortStrings xs)).trans (ih.cons x)

theorem count_sortStrings (l : List String) (a : String) :
    (sortStrings l).count a = l.count a :=
  (sortStrings_perm l).count_eq a

theorem mem_sortStrings (l : List String) (a : String) :
    a ∈ sortStrings l ↔ a ∈ l :=
  (sortStrings_perm l).mem_iff

/-- One registerSheet call made on the host: the loop entry key it came
from, the sheet class registered, and the label key passed to localize
(localization is host-side and embedded as the identity on the key). -/
structure SheetReg where
  key : String
  sheet : String
  label : String
deriving DecidableEq

/-- The host-owned tables that registerObjects writes into:
game.system.documentTypes.JournalEntry, CONFIG.JournalEntry.typeLabels,
and the trace of JournalEntry.registerSheet calls made so far. -/
structure HostConfig where
  documentTypes : List String
  typeLabels : List (String × String)
  sheetRegistrations : List SheetReg
deriving DecidableEq

/-- Embedding of foundry.utils.mergeObject on flat string-keyed objects:
each binding of the addition overwrites or extends the base. -/
def mergeObject (base : List (String × String)) : List (String × String) → List (String × String)
  | [] => base
  | kv :: rest => mergeObject (setAssoc base kv.1 kv.2) rest

/-- Embedding of registerObjects from src/main.js lines 55 to 73: register
a sheet for every entry of types whose key is not default, append all keys
of types to the document-type list of the host and sort it, and merge the
labels into the type-label table of the host. -/
def registerObjects (cfg : HostConfig) (types labels : List (String × String)) : HostConfig :=
  { documentTypes := sortStrings (cfg.documentTypes ++ types.map Prod.fst)
    typeLabels := mergeObject cfg.typeLabels labels
    sheetRegistrations := cfg.sheetRegistrations ++
      (types.filter (fun kv => kv.1 != "default")).map
        (fun kv => { key := kv.1, sheet := kv.2, label := (getAssoc labels kv.1).getD "" }) }

/-- The static types table of the StoryTeller class, each sheet class
embedded by its name (the name field read by createJournalEntry). -/
def StoryTeller.types : List (String × String) :=
  [("default", "JournalSheet"), ("story", "StorySheet")]

/-- The static labels table of the StoryTeller class. -/
def StoryTeller.labels : List (String × String) :=
  [("story", "STORYTELLER.StoryEntry"), ("default", "STORYTELLER.BaseJournalEntry")]

/-- The host tables as they stand before init: the base JournalEntry type
exists, no storyteller labels, no sheets registered by this module. -/
def initialHost : HostConfig :=
  { documentTypes := ["base"], typeLabels := [], sheetRegistrations := [] }

/-- Embedding of preCreateJournalEntry from src/main.js lines 180 to 188:
when the stored dirty-hack type is a key of the types table and is not
default, write it into options.type; otherwise leave options untouched. -/
def preCreateJournalEntry (typeKeys : List String) (currentType : String)
    (optionsType : Option String) : Option String :=
  if currentType ∈ typeKeys ∧ currentType ≠ "default" then some currentType
  else optionsType

/-- The document modifications performed by the createJournalEntry hook:
whether the bound sheet was detached (doc._sheet = null and the app entry
deleted), the value written to the core sheetClass flag, whether the stale
sheet was closed, and the id rendered by postCreateJournalEntry. -/
structure CreateHookEffects where
  detachedSheet : Bool
  sheetClassFlag : Option String
  closedStaleSheet : Bool
  renderedId : Option String
deriving DecidableEq

/-- The hook returned early: the document is untouched. -/
def noEffects : CreateHookEffects :=
  { detachedSheet := false, sheetClassFlag := none,
    closedStaleSheet := false, renderedId := none }

/-- Embedding of createJournalEntry from src/main.js lines 192 to 205:
return unless the acting user is the creating user and options.type is a
key of the types table; otherwise detach the sheet, set the core
sheetClass flag to journals. followed by the class name of the sheet for
that type, close the stale sheet, and render the document. -/
def createJournalEntry (types : List (String × String)) (gameUserId : String)
    (docId : String) (optionsType : Option String) (userId : String) : CreateHookEffects :=
  match optionsType with
  | none => noEffects
  | some t =>
    if gameUserId ≠ userId ∨ t ∉ types.map Prod.fst then noEffects
    else
      { detachedSheet := true
        sheetClassFlag := some ("journals." ++ ((getAssoc types t).getD ""))
        closedStaleSheet := true
        renderedId := some docId }

theorem mem_keys_setAssoc {α : Type} (m : List (String × α)) (k a : String) (v : α) :
    a ∈ (setAssoc m k v).map Prod.fst ↔ a ∈ m.map Prod.fst ∨ a = k := by
  induction m with
  | nil => simp [setAssoc]
  | cons kv rest ih =>
    by_cases h : kv.1 = k
    · subst h
      simp [setAssoc]
      tauto
    · simp [setAssoc, h, ih]
      tauto

theorem keys_nodup_setAssoc {α : Type} (m : List (String × α)) (k : String) (v : α)
    (h : (m.map Prod.fst).Nodup) : ((setAssoc m k v).map Prod.fst).Nodup := by
  induction m with
  | nil => simp [setAssoc]
  | cons kv rest ih =>
    simp only [List.map_cons, List.nodup_cons] at h
    by_cases hk : kv.1 = k
    · subst hk
      simpa [setAssoc, List.nodup_cons] using h
    · simp only [setAssoc, hk, if_neg, ite_false, List.map_cons, List.nodup_cons]
      refine ⟨fun hmem => ?_, ih h.2⟩
      rcases (mem_keys_setAssoc rest k kv.1 v).mp hmem with hin | heq
      · exact h.1 hin
      · exact hk heq

theorem keys_nodup_mergeObject (base add : List (String × String))
    (h : (base.map Prod.fst).Nodup) : ((mergeObject base add).map Prod.fst).Nodup := by
  induction add generalizing base with
  | nil => simpa [mergeObject] using h
  | cons kv rest ih =>
    exact ih (setAssoc base kv.1 kv.2) (keys_nodup_setAssoc base kv.1 kv.2 h)

theorem getAssoc_mergeObject_not_mem (base add : List (String × String)) (k : String)
    (h : k ∉ add.map Prod.fst) : getAssoc (mergeObject base add) k = getAssoc base k := by
  induction add generalizing base with
  | nil => simp [mergeObject]
  | cons kv rest ih =>
    simp only [List.map_cons, List.mem_cons, not_or] at h
    rw [mergeObject, ih (setAssoc base kv.1 kv.2) h.2,
      getAssoc_setAssoc_ne base kv.1 k kv.2 h.1]

theorem isSome_getAssoc_mergeObject (base add : List (String × String)) (k : String)
    (h : k ∈ add.map Prod.fst) : (getAssoc (mergeObject base add) k).isSome := by
  induction add generalizing base with
  | nil => simp at h
  | cons kv rest ih =>
    by_cases hr : k ∈ rest.map Prod.fst
    · exact ih (setAssoc base kv.1 kv.2) hr
    · simp only [List.map_cons, List.mem_cons] at h
      rcases h with heq | hin
      · rw [mergeObject, getAssoc_mergeObject_not_mem (setAssoc base kv.1 kv.2) rest k hr,
          heq, getAssoc_setAssoc_self]
        rfl
      · exact absurd hin hr

theorem count_documentTypes_registerObjects (cfg : HostConfig)
    (types labels : List (String × String)) (k : String) :
    (registerObjects cfg types labels).documentTypes.count k =
      cfg.documentTypes.count k + (types.map Prod.fst).count k := by
  simp [registerObjects, count_sortStrings, List.count_append]

/-- Claim C1: for every document id d and page p with p nonzero,
showStoryByIDToAll d p emits exactly one setPageToOpen broadcast carrying
d and p and sets the local Page Directory entry for d to p; for every
page value it fetches document d and renders its text view. -/
theorem showStoryByIDToAll_broadcast_and_directory (pages : Pages) (d : String) (p : Int)
    (hp : p ≠ 0) :
    (showStoryByIDToAll pages d p).emitted = [{ action := "setPageToOpen", id := d, page := p }] ∧
    getAssoc (showStoryByIDToAll pages d p).pages d = some p ∧
    (∀ q : Int, (showStoryByIDToAll pages d q).fetched = [d] ∧
      (showStoryByIDToAll pages d q).rendered = [RenderEffect.showText d]) := by
  refine ⟨?_, ?_, ?_⟩
  · simp [showStoryByIDToAll, hp]
  · simp [showStoryByIDToAll, hp, getAssoc_setAssoc_self]
  · intro q
    by_cases hq : q = 0
    · simp [showStoryByIDToAll, hq]
    · simp [showStoryByIDToAll, hq]

theorem showStoryByIDToAll_broadcast_and_directory_witness :
    (2 : Int) ≠ 0 ∧
    ((showStoryByIDToAll [] "d1" 2).emitted =
        [{ action := "setPageToOpen", id := "d1", page := 2 }] ∧
      getAssoc (showStoryByIDToAll [] "d1" 2).pages "d1" = some 2 ∧
      (∀ q : Int, (showStoryByIDToAll [] "d1" q).fetched = ["d1"] ∧
        (showStoryByIDToAll [] "d1" q).rendered = [RenderEffect.showText "d1"])) :=
  ⟨by decide, showStoryByIDToAll_broadcast_and_directory [] "d1" 2 (by decide)⟩

/-- Claim C2: the socket handler updates the directory entry for the
message id to the message page exactly when the action is setPageToOpen
and the id is nonempty, leaving every other key unchanged; any message
with a different action or an empty id leaves the directory untouched. -/
theorem setPageToOpen_updates_iff (pages : Pages) (m : SocketMessage) :
    (m.action = "setPageToOpen" ∧ m.id ≠ "" →
      getAssoc (_setPageToOpen pages m) m.id = some m.page ∧
      ∀ k, k ≠ m.id → getAssoc (_setPageToOpen pages m) k = getAssoc pages k) ∧
    (m.action ≠ "setPageToOpen" ∨ m.id = "" → _setPageToOpen pages m = pages) := by
  constructor
  · rintro ⟨ha, hi⟩
    have hguard : ¬(m.action ≠ "setPageToOpen" ∨ m.id = "") := by
      simp [ha, hi]
    constructor
    · simp [_setPageToOpen, hguard, getAssoc_setAssoc_self]
    · intro k hk
      simp only [_setPageToOpen, hguard, if_neg, ite_false]
      exact getAssoc_setAssoc_ne pages m.id k m.page hk
  · intro hguard
    simp [_setPageToOpen, hguard]

theorem setPageToOpen_updates_iff_witness :
    (("setPageToOpen" : String) = "setPageToOpen" ∧ ("d1" : String) ≠ "") ∧
    getAssoc (_setPageToOpen [("x", 9)] { action := "setPageToOpen", id := "d1", page := 5 }) "d1" =
      some 5 ∧
    _setPageToOpen [("x", 9)] { action := "other", id := "d1", page := 5 } = [("x", 9)] :=
  ⟨⟨rfl, by decide⟩,
    ((setPageToOpen_updates_iff [("x", 9)]
      { action := "setPageToOpen", id := "d1", page := 5 }).1 ⟨rfl, by decide⟩).1,
    (setPageToOpen_updates_iff [("x", 9)]
      { action := "other", id := "d1", page := 5 }).2 (Or.inl (by decide))⟩

/-- Claim C7: showStoryByIDToAll with page zero leaves the Page Directory
unchanged and emits no socket event, yet still fetches document d and
renders its text view. -/
theorem showStoryByIDToAll_zero_page (pages : Pages) (d : String) :
    (showStoryByIDToAll pages d 0).emitted = [] ∧
    (showStoryByIDToAll pages d 0).pages = pages ∧
    (showStoryByIDToAll pages d 0).fetched = [d] ∧
    (showStoryByIDToAll pages d 0).rendered = [RenderEffect.showText d] := by
  refine ⟨?_, ?_, ?_, ?_⟩ <;> simp [showStoryByIDToAll]

/-- Claim C8: showStoryToPlayerOnly never emits a socket event; with a
nonzero page it updates only the Page Directory entry for d, with page
zero it changes nothing, and in every case it fetches the document and
renders its sheet locally. -/
theorem showStoryToPlayerOnly_local_only (pages : Pages) (d : String) (p : Int) :
    (showStoryToPlayerOnly pages d p).emitted = [] ∧
    (showStoryToPlayerOnly pages d p).fetched = [d] ∧
    (showStoryToPlayerOnly pages d p).rendered = [RenderEffect.renderSheet d] ∧
    (p ≠ 0 → getAssoc (showStoryToPlayerOnly pages d p).pages d = some p ∧
      ∀ k, k ≠ d → getAssoc (showStoryToPlayerOnly pages d p).pages k = getAssoc pages k) ∧
    (p = 0 → (showStoryToPlayerOnly pages d p).pages = pages) := by
  by_cases hp : p = 0
  · subst hp
    refine ⟨?_, ?_, ?_, ?_, ?_⟩ <;> simp [showStoryToPlayerOnly]
  · refine ⟨?_, ?_, ?_, ?_, ?_⟩
    · simp [showStoryToPlayerOnly, hp]
    · simp [showStoryToPlayerOnly, hp]
    · simp [showStoryToPlayerOnly, hp]
    · intro _
      constructor
      · simp [showStoryToPlayerOnly, hp, getAssoc_setAssoc_self]
      · intro k hk
        simp only [showStoryToPlayerOnly, hp, if_neg, ite_not, ite_false]
        exact getAssoc_setAssoc_ne pages d k p hk
    · intro h
      exact absurd h hp

theorem showStoryToPlayerOnly_local_only_witness :
    (showStoryToPlayerOnly [] "d1" 3).emitted = [] ∧
    getAssoc (showStoryToPlayerOnly [] "d1" 3).pages "d1" = some 3 ∧
    (showStoryToPlayerOnly [] "d1" 0).pages = [] :=
  ⟨(showStoryToPlayerOnly_local_only [] "d1" 3).1,
    (((showStoryToPlayerOnly_local_only [] "d1" 3).2.2.2.1) (by decide)).1,
    ((showStoryToPlayerOnly_local_only [] "d1" 0).2.2.2.2) rfl⟩

/-- Claim C10: neither local show function validates the document id:
with a nonzero page, both showStoryByIDToAll and showStoryToPlayerOnly
create or overwrite a Page Directory entry under the empty-string key. -/
theorem show_functions_accept_empty_id (pages : Pages) (p : Int) (hp : p ≠ 0) :
    getAssoc (showStoryByIDToAll pages "" p).pages "" = some p ∧
    getAssoc (showStoryToPlayerOnly pages "" p).pages "" = some p := by
  constructor
  · simp [showStoryByIDToAll, hp, getAssoc_setAssoc_self]
  · simp [showStoryToPlayerOnly, hp, getAssoc_setAssoc_self]

theorem show_functions_accept_empty_id_witness :
    (7 : Int) ≠ 0 ∧
    (getAssoc (showStoryByIDToAll [("a", 1)] "" 7).pages "" = some 7 ∧
      getAssoc (showStoryToPlayerOnly [("a", 1)] "" 7).pages "" = some 7) :=
  ⟨by decide, show_functions_accept_empty_id [("a", 1)] 7 (by decide)⟩

/-- Claim C6: at pre-creation, a stored type that is a registered key and
not default is written into the creation options; a stored value equal to
default or not registered leaves the options unchanged. -/
theorem preCreateJournalEntry_spec (typeKeys : List String) (currentType : String)
    (optionsType : Option String) :
    (currentType ∈ typeKeys ∧ currentType ≠ "default" →
      preCreateJournalEntry typeKeys currentType optionsType = some currentType) ∧
    (currentType = "default" ∨ currentType ∉ typeKeys →
      preCreateJournalEntry typeKeys currentType optionsType = optionsType) := by
  constructor
  · intro h
    simp [preCreateJournalEntry, h.1, h.2]
  · rintro (h | h)
    · simp [preCreateJournalEntry, h]
    · simp [preCreateJournalEntry, h]

theorem preCreateJournalEntry_spec_witness :
    (("story" : String) ∈ ["default", "story"] ∧ ("story" : String) ≠ "default") ∧
    preCreateJournalEntry ["default", "story"] "story" none = some "story" ∧
    preCreateJournalEntry ["default", "story"] "default" none = none :=
  ⟨⟨by decide, by decide⟩,
    (preCreateJournalEntry_spec ["default", "story"] "story" none).1 ⟨by decide, by decide⟩,
    (preCreateJournalEntry_spec ["default", "story"] "default" none).2 (Or.inl rfl)⟩

/-- Claim C9: each page-setting operation touches at most the entry of
the id it was given, leaving every other key unchanged, never removes an
entry, and when it does set (nonzero page) it creates or overwrites the
single entry for that id. -/
theorem pageDirectory_frame_invariant (pages : Pages) (id k : String) (p : Int)
    (m : SocketMessage) :
    (k ≠ id → getAssoc (showStoryByIDToAll pages id p).pages k = getAssoc pages k) ∧
    (k ≠ id → getAssoc (showStoryToPlayerOnly pages id p).pages k = getAssoc pages k) ∧
    (k ≠ m.id → getAssoc (_setPageToOpen pages m) k = getAssoc pages k) ∧
    ((getAssoc pages k).isSome → (getAssoc (showStoryByIDToAll pages id p).pages k).isSome) ∧
    ((getAssoc pages k).isSome → (getAssoc (showStoryToPlayerOnly pages id p).pages k).isSome) ∧
    ((getAssoc pages k).isSome → (getAssoc (_setPageToOpen pages m) k).isSome) ∧
    (p ≠ 0 → getAssoc (showStoryByIDToAll pages id p).pages id = some p ∧
      getAssoc (showStoryToPlayerOnly pages id p).pages id = some p) := by
  have hAll : (showStoryByIDToAll pages id p).pages =
      if p ≠ 0 then setAssoc pages id p else pages := by
    by_cases hp : p = 0 <;> simp [showStoryByIDToAll, hp]
  have hLoc : (showStoryToPlayerOnly pages id p).pages =
      if p ≠ 0 then setAssoc pages id p else pages := by
    by_cases hp : p = 0 <;> simp [showStoryToPlayerOnly, hp]
  have hSock : _setPageToOpen pages m =
      if m.action ≠ "setPageToOpen" ∨ m.id = "" then pages
      else setAssoc pages m.id m.page := rfl
  refine ⟨?_, ?_, ?_, ?_, ?_, ?_, ?_⟩
  · intro hk
    rw [hAll]
    by_cases hp : p ≠ 0
    · rw [if_pos hp]
      exact getAssoc_setAssoc_ne pages id k p hk
    · simp [hp]
  · intro hk
    rw [hLoc]
    by_cases hp : p ≠ 0
    · rw [if_pos hp]
      exact getAssoc_setAssoc_ne pages id k p hk
    · simp [hp]
  · intro hk
    rw [hSock]
    by_cases hg : m.action ≠ "setPageToOpen" ∨ m.id = ""
    · simp [hg]
    · rw [if_neg hg]
      exact getAssoc_setAssoc_ne pages m.id k m.page hk
  · intro hs
    rw [hAll]
    by_cases hp : p ≠ 0
    · rw [if_pos hp]
      exact isSome_getAssoc_setAssoc pages id k p hs
    · simpa [hp] using hs
  · intro hs
    rw [hLoc]
    by_cases hp : p ≠ 0
    · rw [if_pos hp]
      exact isSome_getAssoc_setAssoc pages id k p hs
    · simpa [hp] using hs
  · intro hs
    rw [hSock]
    by_cases hg : m.action ≠ "setPageToOpen" ∨ m.id = ""
    · simpa [hg] using hs
    · rw [if_neg hg]
      exact isSome_getAssoc_setAssoc pages m.id k m.page hs
  · intro hp
    rw [hAll, hLoc]
    simp [hp, getAssoc_setAssoc_self]

theorem pageDirectory_frame_invariant_witness :
    getAssoc (showStoryByIDToAll [("a", 1)] "b" 4).pages "a" = some 1 ∧
    getAssoc (showStoryToPlayerOnly [("a", 1)] "b" 4).pages "a" = some 1 ∧
    (getAssoc (_setPageToOpen [("a", 1)] { action := "setPageToOpen", id := "b", page := 4 }) "a").isSome ∧
    getAssoc (showStoryByIDToAll [("a", 1)] "b" 4).pages "b" = some 4 :=
  ⟨(pageDirectory_frame_invariant [("a", 1)] "b" "a" 4
      { action := "setPageToOpen", id := "b", page := 4 }).1 (by decide),
    (pageDirectory_frame_invariant [("a", 1)] "b" "a" 4
      { action := "setPageToOpen", id := "b", page := 4 }).2.1 (by decide),
    (pageDirectory_frame_invariant [("a", 1)] "b" "a" 4
      { action := "setPageToOpen", id := "b", page := 4 }).2.2.2.2.2.1 (by decide),
    ((pageDirectory_frame_invariant [("a", 1)] "b" "a" 4
      { action := "setPageToOpen", id := "b", page := 4 }).2.2.2.2.2.2 (by decide)).1⟩

/-- Claim C3, counterexample: with options.type equal to default and the
acting user equal to the creating user, the hook does not return early:
it performs the full sheet swap, writing journals.JournalSheet into the
sheetClass flag, contrary to the claim that the swap happens only for a
registered custom type that is not default. -/
theorem createJournalEntry_default_counterexample :
    createJournalEntry StoryTeller.types "user1" "doc1" (some "default") "user1" =
      { detachedSheet := true, sheetClassFlag := some "journals.JournalSheet",
        closedStaleSheet := true, renderedId := some "doc1" } ∧
    createJournalEntry StoryTeller.types "user1" "doc1" (some "default") "user1" ≠ noEffects := by
  constructor
  · decide
  · decide

/-- Claim C3, amended: the post-creation sheet swap is performed exactly
when the acting user id equals the creating user id and options.type is
any key of the registered type table, the default key included; in every
other case the hook returns without modifying the document. -/
theorem createJournalEntry_swap_iff (types : List (String × String))
    (gU docId uId : String) (t : Option String) :
    (createJournalEntry types gU docId t uId ≠ noEffects ↔
      gU = uId ∧ ∃ s, t = some s ∧ s ∈ types.map Prod.fst) ∧
    (∀ s, t = some s → gU = uId → s ∈ types.map Prod.fst →
      createJournalEntry types gU docId t uId =
        { detachedSheet := true
          sheetClassFlag := some ("journals." ++ ((getAssoc types s).getD ""))
          closedStaleSheet := true
          renderedId := some docId }) := by
  cases t with
  | none =>
    constructor
    · simp [createJournalEntry]
    · intro s hs
      exact absurd hs (by simp)
  | some s =>
    by_cases hg : gU ≠ uId ∨ s ∉ types.map Prod.fst
    · constructor
      · simp only [createJournalEntry, hg, ite_true, ne_eq, not_true_eq_false, false_iff,
          not_and]
        intro hu
        rcases hg with hg | hg
        · exact absurd hu hg
        · rintro ⟨x, hx, hmem⟩
          rw [Option.some_inj] at hx
          exact hg (hx ▸ hmem)
      · intro x hx hu hmem
        rw [Option.some_inj] at hx
        rcases hg with hg | hg
        · exact absurd hu hg
        · exact absurd (hx ▸ hmem) hg
    · push_neg at hg
      have hguard : ¬(gU ≠ uId ∨ s ∉ types.map Prod.fst) := by
        push_neg
        exact hg
      have heq : createJournalEntry types gU docId (some s) uId =
          { detachedSheet := true
            sheetClassFlag := some ("journals." ++ ((getAssoc types s).getD ""))
            closedStaleSheet := true
            renderedId := some docId } := by
        simp only [createJournalEntry, hguard, ite_false, if_neg, not_false_iff]
      constructor
      · rw [heq]
        constructor
        · intro _
          exact ⟨hg.1, s, rfl, hg.2⟩
        · intro _ hcontra
          simp [noEffects] at hcontra
      · intro x hx _ _
        rw [Option.some_inj] at hx
        subst hx
        exact heq

theorem createJournalEntry_swap_iff_witness :
    createJournalEntry StoryTeller.types "u2" "doc2" (some "story") "u2" =
      { detachedSheet := true
        sheetClassFlag := some ("journals." ++ ((getAssoc StoryTeller.types "story").getD ""))
        closedStaleSheet := true
        renderedId := some "doc2" } ∧
    createJournalEntry StoryTeller.types "u2" "doc2" (some "story") "u2" ≠ noEffects :=
  ⟨(createJournalEntry_swap_iff StoryTeller.types "u2" "doc2" "u2" (some "story")).2
      "story" rfl rfl (by decide),
    (createJournalEntry_swap_iff StoryTeller.types "u2" "doc2" "u2" (some "story")).1.mpr
      ⟨rfl, "story", rfl, by decide⟩⟩

/-- Claim C4, counterexample: running the registration step twice with the
static storyteller type set leaves duplicate keys in the host document
type list, so registration is not idempotent for that list. -/
theorem registerObjects_twice_duplicates :
    ¬ (registerObjects (registerObjects initialHost StoryTeller.types StoryTeller.labels)
        StoryTeller.types StoryTeller.labels).documentTypes.Nodup := by
  decide

/-- Claim C4, amended: after running the registration step twice with the
same type set, the type-label table still has no duplicate keys, but the
host document-type list received the keys once per run: every key of the
type set occurs at least twice, so for a nonempty type set the list has
duplicate keys. -/
theorem registerObjects_twice_spec (cfg : HostConfig) (types labels : List (String × String))
    (h1 : (cfg.typeLabels.map Prod.fst).Nodup) :
    (((registerObjects (registerObjects cfg types labels) types labels).typeLabels.map
        Prod.fst).Nodup) ∧
    (∀ k, k ∈ types.map Prod.fst →
      2 ≤ (registerObjects (registerObjects cfg types labels) types labels).documentTypes.count
        k) ∧
    (types ≠ [] →
      ¬ (registerObjects (registerObjects cfg types labels) types
          labels).documentTypes.Nodup) := by
  have hcount : ∀ k, (registerObjects (registerObjects cfg types labels) types
      labels).documentTypes.count k =
        cfg.documentTypes.count k + (types.map Prod.fst).count k +
          (types.map Prod.fst).count k := by
    intro k
    rw [count_documentTypes_registerObjects, count_documentTypes_registerObjects]
  have htwo : ∀ k, k ∈ types.map Prod.fst →
      2 ≤ (registerObjects (registerObjects cfg types labels) types
        labels).documentTypes.count k := by
    intro k hk
    have hone : 0 < (types.map Prod.fst).count k := List.count_pos_iff.mpr hk
    rw [hcount k]
    omega
  refine ⟨?_, htwo, ?_⟩
  · show ((mergeObject (mergeObject cfg.typeLabels labels) labels).map Prod.fst).Nodup
    exact keys_nodup_mergeObject _ labels (keys_nodup_mergeObject _ labels h1)
  · intro hne hnodup
    obtain ⟨kv, hkv⟩ := List.exists_mem_of_ne_nil types hne
    have hk : kv.1 ∈ types.map Prod.fst := List.mem_map_of_mem Prod.fst hkv
    have hle := List.nodup_iff_count_le_one.mp hnodup kv.1
    have := htwo kv.1 hk
    omega

theorem registerObjects_twice_spec_witness :
    (((registerObjects (registerObjects initialHost StoryTeller.types StoryTeller.labels)
        StoryTeller.types StoryTeller.labels).typeLabels.map Prod.fst).Nodup) ∧
    2 ≤ (registerObjects (registerObjects initialHost StoryTeller.types StoryTeller.labels)
        StoryTeller.types StoryTeller.labels).documentTypes.count "story" :=
  ⟨(registerObjects_twice_spec initialHost StoryTeller.types StoryTeller.labels (by decide)).1,
    (registerObjects_twice_spec initialHost StoryTeller.types StoryTeller.labels
      (by decide)).2.1 "story" (by decide)⟩

/-- Claim C5, counterexample: one run of the registration step with the
static storyteller tables adds the key default both to the host document
type list and to the host type-label table, contrary to the claim that no
entry for default is added to the host type tables. -/
theorem registerObjects_default_in_tables :
    "default" ∈ (registerObjects initialHost StoryTeller.types StoryTeller.labels).documentTypes ∧
    getAssoc (registerObjects initialHost StoryTeller.types StoryTeller.labels).typeLabels
      "default" = some "STORYTELLER.BaseJournalEntry" := by
  constructor
  · decide
  · decide

/-- Claim C5, amended: the registration step never makes a registerSheet
call for the key default, but when default is among the merged keys it is
still appended to the host document-type list and its label still enters
the host type-label table. -/
theorem registerObjects_default_skip (cfg : HostConfig) (types labels : List (String × String)) :
    (∀ r, r ∈ (registerObjects cfg types labels).sheetRegistrations →
      r ∈ cfg.sheetRegistrations ∨ r.key ≠ "default") ∧
    ("default" ∈ types.map Prod.fst →
      "default" ∈ (registerObjects cfg types labels).documentTypes) ∧
    ("default" ∈ labels.map Prod.fst →
      (getAssoc (registerObjects cfg types labels).typeLabels "default").isSome) := by
  refine ⟨?_, ?_, ?_⟩
  · intro r hr
    simp only [registerObjects, List.mem_append] at hr
    rcases hr with hr | hr
    · exact Or.inl hr
    · right
      simp only [List.mem_map, List.mem_filter] at hr
      obtain ⟨kv, ⟨_, hkey⟩, hrfl⟩ := hr
      subst hrfl
      simpa [bne_iff_ne] using hkey
  · intro h
    show "default" ∈ sortStrings (cfg.documentTypes ++ types.map Prod.fst)
    rw [mem_sortStrings]
    exact List.mem_append_right _ h
  · intro h
    exact isSome_getAssoc_mergeObject cfg.typeLabels labels "default" h

theorem registerObjects_default_skip_witness :
    (("default" : String) ∈ StoryTeller.types.map Prod.fst) ∧
    "default" ∈ (registerObjects initialHost StoryTeller.types StoryTeller.labels).documentTypes ∧
    (getAssoc (registerObjects initialHost StoryTeller.types
      StoryTeller.labels).typeLabels "default").isSome :=
  ⟨by decide,
    (registerObjects_default_skip initialHost StoryTeller.types StoryTeller.labels).2.1
      (by decide),
    (registerObjects_default_skip initialHost StoryTeller.types StoryTeller.labels).2.2
      (by decide)⟩

end Storyteller
